import Mathlib

/-!
Verification of the icon asset generation engine (`src/icon_gen.rs`,
`src/contents_json.rs`, `src/main.rs`) of the `icon-generator` repository.

The Rust code is shallowly embedded: an RGBA raster is a `Pixel`-valued
function together with its dimensions, the `f32` pixel arithmetic of the
source is modelled over `ℚ` (exact at the alpha endpoints 0 and 255 that the
claims exercise), the floating-point distance computation of the circular
mask is modelled over `ℝ`, and the file-producing orchestrators are modelled
as pure functions from the argument record to the list of paths they write.
The Lanczos resampler belongs to the external `image` crate, not to this
repository; it is kept as an explicit function parameter `resample`
constrained only by its documented contract (the output raster has exactly
the requested dimensions).
-/

/-- One RGBA pixel; channels are the `u8` channel values of the Rust code,
kept as naturals (all writes go through the saturating cast `toU8`). -/
structure Pixel where
  r : ℕ
  g : ℕ
  b : ℕ
  a : ℕ
deriving DecidableEq

/-- An in-memory RGBA raster: dimensions plus a pixel function
(`image::DynamicImage` / `ImageBuffer` in the source). -/
structure Image where
  width : ℕ
  height : ℕ
  pixel : ℕ → ℕ → Pixel

/-- A solid-colour raster (`ImageBuffer::from_fn(n, n, |_, _| c)`). -/
def solidImage (n : ℕ) (c : Pixel) : Image :=
  ⟨n, n, fun _ _ => c⟩

/-- Rust's saturating float-to-`u8` cast `v as u8` for the non-negative
values produced by the compositor, over `ℚ`: truncate, clamp to 255. -/
def toU8 (q : ℚ) : ℕ :=
  min 255 ⌊q⌋.toNat

/-- The iOS background colour of `generate_ios_icons`: a parsed CSS colour
(`css_color::Srgb`, channels in `[0,1]`) mapped to `Rgba([r*255 as u8,
g*255 as u8, b*255 as u8, 255])`, falling back to opaque white when parsing
fails (`unwrap_or(Rgba([255, 255, 255, 255]))`). -/
def ios_background_pixel (parsed : Option (ℚ × ℚ × ℚ)) : Pixel :=
  match parsed with
  | some rgb => ⟨toU8 (rgb.1 * 255), toU8 (rgb.2.1 * 255), toU8 (rgb.2.2 * 255), 255⟩
  | none => ⟨255, 255, 255, 255⟩

/-- The per-pixel iOS background composite of `generate_ios_icons`
(src/icon_gen.rs lines 619–636): fully transparent source pixels become the
background colour; otherwise the channels are blended
`src_alpha * src + (1 - src_alpha) * bg` and alpha is forced to 255. -/
def ios_composite_pixel (bg : Pixel) (src : Pixel) : Pixel :=
  let srcAlpha : ℚ := (src.a : ℚ) / 255
  if srcAlpha = 0 then bg
  else
    let invAlpha : ℚ := 1 - srcAlpha
    ⟨toU8 (srcAlpha * src.r + invAlpha * bg.r),
     toU8 (srcAlpha * src.g + invAlpha * bg.g),
     toU8 (srcAlpha * src.b + invAlpha * bg.b),
     255⟩

theorem toU8_natCast (n : ℕ) (h : n ≤ 255) : toU8 (n : ℚ) = n := by
  simp [toU8, Int.floor_natCast, h]

/-- Claim C5: the iOS background composite maps a fully opaque foreground
pixel to itself with alpha forced to 255 (the background colour is
invisible), maps a fully transparent foreground pixel to the background
colour (which carries alpha 255), and gives every output pixel alpha 255. -/
theorem c5_ios_composite (parsed : Option (ℚ × ℚ × ℚ)) (src : Pixel)
    (hr : src.r ≤ 255) (hg : src.g ≤ 255) (hb : src.b ≤ 255) :
    (ios_composite_pixel (ios_background_pixel parsed) src).a = 255
    ∧ (src.a = 255 →
        ios_composite_pixel (ios_background_pixel parsed) src = ⟨src.r, src.g, src.b, 255⟩)
    ∧ (src.a = 0 →
        ios_composite_pixel (ios_background_pixel parsed) src = ios_background_pixel parsed) := by
  refine ⟨?_, ?_, ?_⟩
  · by_cases h0 : ((src.a : ℚ) / 255) = 0
    · rw [ios_composite_pixel, if_pos h0]
      cases parsed <;> simp [ios_background_pixel]
    · rw [ios_composite_pixel]
      simp only [if_neg h0]
  · intro ha
    have h0 : ¬ ((src.a : ℚ) / 255) = 0 := by rw [ha]; norm_num
    rw [ios_composite_pixel]
    simp only [if_neg h0, ha]
    norm_num
    exact ⟨toU8_natCast _ hr, toU8_natCast _ hg, toU8_natCast _ hb⟩
  · intro ha
    have h0 : ((src.a : ℚ) / 255) = 0 := by rw [ha]; norm_num
    rw [ios_composite_pixel, if_pos h0]

/-- Witness for C5 at a concrete background (pure red, parsed) and a
concrete opaque and a concrete transparent source pixel. -/
theorem c5_ios_composite_witness :
    ios_composite_pixel (ios_background_pixel (some (1, 0, 0))) ⟨10, 20, 30, 255⟩
      = ⟨10, 20, 30, 255⟩
    ∧ ios_composite_pixel (ios_background_pixel (some (1, 0, 0))) ⟨1, 2, 3, 0⟩
      = ios_background_pixel (some (1, 0, 0)) :=
  ⟨(c5_ios_composite (some (1, 0, 0)) ⟨10, 20, 30, 255⟩ (by decide) (by decide)
      (by decide)).2.1 rfl,
   (c5_ios_composite (some (1, 0, 0)) ⟨1, 2, 3, 0⟩ (by decide) (by decide)
      (by decide)).2.2 rfl⟩

/-- Rust's saturating float-to-`u8` cast for the mask's `ℝ`-valued
anti-aliasing arithmetic. -/
noncomputable def toU8R (x : ℝ) : ℕ :=
  min 255 ⌊x⌋.toNat

/-- One pixel of `apply_circular_mask` (src/icon_gen.rs lines 861–889):
pixels farther from the centre than the inscribed radius become fully
transparent black; pixels within 1px inside the boundary have their alpha
scaled by `radius - distance`; all other pixels are untouched. -/
noncomputable def mask_pixel (w h x y : ℕ) (p : Pixel) : Pixel :=
  let radius : ℝ := (min w h : ℝ) / 2
  let dx : ℝ := (x : ℝ) - (w : ℝ) / 2
  let dy : ℝ := (y : ℝ) - (h : ℝ) / 2
  let distance : ℝ := Real.sqrt (dx * dx + dy * dy)
  if radius < distance then ⟨0, 0, 0, 0⟩
  else if radius - 1 < distance then
    { p with a := toU8R ((p.a : ℝ) * (radius - distance)) }
  else p

/-- `apply_circular_mask`: the circular mask applied pixelwise. -/
noncomputable def apply_circular_mask (img : Image) : Image :=
  ⟨img.width, img.height, fun x y => mask_pixel img.width img.height x y (img.pixel x y)⟩

theorem mask_pixel_square (w x y : ℕ) (p : Pixel) :
    mask_pixel w w x y p =
      (if (w : ℝ) / 2 <
          Real.sqrt (((x : ℝ) - (w : ℝ) / 2) * ((x : ℝ) - (w : ℝ) / 2)
            + ((y : ℝ) - (w : ℝ) / 2) * ((y : ℝ) - (w : ℝ) / 2)) then ⟨0, 0, 0, 0⟩
       else if (w : ℝ) / 2 - 1 <
          Real.sqrt (((x : ℝ) - (w : ℝ) / 2) * ((x : ℝ) - (w : ℝ) / 2)
            + ((y : ℝ) - (w : ℝ) / 2) * ((y : ℝ) - (w : ℝ) / 2)) then
         { p with a := toU8R ((p.a : ℝ) * ((w : ℝ) / 2 -
            Real.sqrt (((x : ℝ) - (w : ℝ) / 2) * ((x : ℝ) - (w : ℝ) / 2)
              + ((y : ℝ) - (w : ℝ) / 2) * ((y : ℝ) - (w : ℝ) / 2)))) }
       else p) := by
  simp [mask_pixel]

/-- Claim C6: the circular mask zeroes every pixel beyond the inscribed
radius, linearly scales alpha within the 1px anti-aliasing band, and on a
fully opaque square input keeps alpha 255 at the centre pixel and gives
alpha 0 at the corner pixel. -/
theorem c6_circular_mask (w : ℕ) (hw : 2 ≤ w) (hev : Even w) (img : Image)
    (hiw : img.width = w) (hih : img.height = w)
    (hop : ∀ x y, (img.pixel x y).a = 255) :
    ((apply_circular_mask img).pixel (w / 2) (w / 2)).a = 255
    ∧ ((apply_circular_mask img).pixel 0 0).a = 0
    ∧ (∀ x y : ℕ,
        (w : ℝ) / 2 * ((w : ℝ) / 2) <
          ((x : ℝ) - (w : ℝ) / 2) * ((x : ℝ) - (w : ℝ) / 2)
            + ((y : ℝ) - (w : ℝ) / 2) * ((y : ℝ) - (w : ℝ) / 2) →
        (apply_circular_mask img).pixel x y = ⟨0, 0, 0, 0⟩)
    ∧ (∀ x y : ℕ,
        ((w : ℝ) / 2 - 1) * ((w : ℝ) / 2 - 1) <
          ((x : ℝ) - (w : ℝ) / 2) * ((x : ℝ) - (w : ℝ) / 2)
            + ((y : ℝ) - (w : ℝ) / 2) * ((y : ℝ) - (w : ℝ) / 2) →
        ((x : ℝ) - (w : ℝ) / 2) * ((x : ℝ) - (w : ℝ) / 2)
            + ((y : ℝ) - (w : ℝ) / 2) * ((y : ℝ) - (w : ℝ) / 2) ≤
          (w : ℝ) / 2 * ((w : ℝ) / 2) →
        ((apply_circular_mask img).pixel x y).a =
          toU8R (255 * ((w : ℝ) / 2 -
            Real.sqrt (((x : ℝ) - (w : ℝ) / 2) * ((x : ℝ) - (w : ℝ) / 2)
              + ((y : ℝ) - (w : ℝ) / 2) * ((y : ℝ) - (w : ℝ) / 2))))) := by
  have hr1 : (1 : ℝ) ≤ (w : ℝ) / 2 := by
    have : (2 : ℝ) ≤ (w : ℝ) := by exact_mod_cast hw
    linarith
  have hr0 : (0 : ℝ) ≤ (w : ℝ) / 2 := by linarith
  have hrpos : (0 : ℝ) < (w : ℝ) / 2 := by linarith
  have hpix : ∀ x y, (apply_circular_mask img).pixel x y =
      mask_pixel w w x y (img.pixel x y) := by
    intro x y
    simp [apply_circular_mask, hiw, hih]
  refine ⟨?_, ?_, ?_, ?_⟩
  · obtain ⟨k, hk⟩ := hev
    have h2 : w / 2 = k := by omega
    have hdx : ((w / 2 : ℕ) : ℝ) - (w : ℝ) / 2 = 0 := by
      rw [h2, hk]; push_cast; ring
    rw [hpix, mask_pixel_square, hdx]
    norm_num [Real.sqrt_zero]
    split_ifs with hc1 hc2
    · linarith
    · linarith
    · exact hop _ _
  · rw [hpix, mask_pixel_square]
    rw [show ((0 : ℕ) : ℝ) - (w : ℝ) / 2 = -((w : ℝ) / 2) by push_cast; ring]
    rw [show -((w : ℝ) / 2) * -((w : ℝ) / 2) + -((w : ℝ) / 2) * -((w : ℝ) / 2)
        = 2 * ((w : ℝ) / 2 * ((w : ℝ) / 2)) by ring]
    have hlt : (w : ℝ) / 2 < Real.sqrt (2 * ((w : ℝ) / 2 * ((w : ℝ) / 2))) := by
      rw [Real.lt_sqrt hr0]
      nlinarith
    rw [if_pos hlt]
  · intro x y hgt
    rw [hpix, mask_pixel_square]
    have hlt : (w : ℝ) / 2 <
        Real.sqrt (((x : ℝ) - (w : ℝ) / 2) * ((x : ℝ) - (w : ℝ) / 2)
          + ((y : ℝ) - (w : ℝ) / 2) * ((y : ℝ) - (w : ℝ) / 2)) := by
      rw [Real.lt_sqrt hr0]
      nlinarith
    rw [if_pos hlt]
  · intro x y hlo hhi
    rw [hpix, mask_pixel_square]
    have hle : Real.sqrt (((x : ℝ) - (w : ℝ) / 2) * ((x : ℝ) - (w : ℝ) / 2)
        + ((y : ℝ) - (w : ℝ) / 2) * ((y : ℝ) - (w : ℝ) / 2)) ≤ (w : ℝ) / 2 := by
      have h := Real.sqrt_le_sqrt hhi
      rwa [Real.sqrt_mul_self hr0] at h
    have hband : (w : ℝ) / 2 - 1 <
        Real.sqrt (((x : ℝ) - (w : ℝ) / 2) * ((x : ℝ) - (w : ℝ) / 2)
          + ((y : ℝ) - (w : ℝ) / 2) * ((y : ℝ) - (w : ℝ) / 2)) := by
      rw [Real.lt_sqrt (by linarith)]
      nlinarith
    rw [if_neg (by linarith), if_pos hband]
    rw [hop x y]
    norm_num

/-- Witness for C6 at the concrete size 48 (the Android mdpi bucket) on a
fully opaque solid image. -/
theorem c6_circular_mask_witness :
    ((apply_circular_mask (solidImage 48 ⟨1, 2, 3, 255⟩)).pixel (48 / 2) (48 / 2)).a = 255
    ∧ ((apply_circular_mask (solidImage 48 ⟨1, 2, 3, 255⟩)).pixel 0 0).a = 0 := by
  have h := c6_circular_mask 48 (by norm_num) (by decide) (solidImage 48 ⟨1, 2, 3, 255⟩)
    rfl rfl (fun _ _ => rfl)
  exact ⟨h.1, h.2.1⟩

/-- `ImageEntry` of src/contents_json.rs: one image record of a
`Contents.json` asset catalog; optional fields are omitted from the JSON
when `none`. -/
structure ImageEntry where
  filename : Option String
  idiom : Option String
  scale : Option String
  size : Option String
  expected_size : Option String
  role : Option String
  subtype : Option String
  folder : Option String
  graphics_feature_set : Option String
  memory : Option String
  color_space : Option String
  display_gamut : Option String
  compression_type : Option String
  language_direction : Option String
  screen_width : Option String
  template_rendering_intent : Option String
  width_class : Option String
  height_class : Option String
deriving DecidableEq

/-- `Info` of src/contents_json.rs. -/
structure Info where
  version : ℕ
  author : String
deriving DecidableEq

/-- `Properties` of src/contents_json.rs (never populated by the
generator). -/
structure Properties where
  on_demand_resource_tags : Option (List String)
  preserves_vector_representation : Option Bool
deriving DecidableEq

/-- `ContentsFile` of src/contents_json.rs: the root of a `Contents.json`
document. -/
structure ContentsFile where
  images : List ImageEntry
  info : Info
  properties : Option Properties
deriving DecidableEq

/-- `ImageEntry::new`: filename, idiom and scale set, everything else
absent. -/
def ImageEntry.new (filename idiom scale : String) : ImageEntry :=
  ⟨some filename, some idiom, some scale, none, none, none, none, none, none,
   none, none, none, none, none, none, none, none, none⟩

/-- `ImageEntry::new_app_icon`: additionally sets `size` and
`expected_size` to the nominal size and takes an optional role. -/
def ImageEntry.new_app_icon (filename idiom size scale : String)
    (role : Option String) : ImageEntry :=
  ⟨some filename, some idiom, some scale, some size, some size, role, none,
   none, none, none, none, none, none, none, none, none, none, none⟩

/-- `ImageEntry::with_folder`. -/
def ImageEntry.with_folder (e : ImageEntry) (folder : String) : ImageEntry :=
  { e with folder := some folder }

/-- `ContentsFile::new`: empty image list, version 1, given author. -/
def ContentsFile.new (author : String) : ContentsFile :=
  ⟨[], ⟨1, author⟩, none⟩

/-- `ContentsFile::add_image`: push one record. -/
def ContentsFile.add_image (c : ContentsFile) (i : ImageEntry) : ContentsFile :=
  { c with images := c.images ++ [i] }

/-- One row of the `sizes` table of `generate_ios_icons`
(src/icon_gen.rs lines 591–606): base point size, scale multipliers,
idiom, optional nominal-size override, optional pixel-size override. -/
structure IosSlot where
  base : ℕ
  mults : List ℕ
  idiom : String
  size_override : Option String
  pixel_override : Option ℕ

/-- The static iOS slot table of `generate_ios_icons`, in declaration
order. -/
def ios_sizes : List IosSlot :=
  [⟨29, [2, 3], "iphone", none, none⟩,
   ⟨40, [2, 3], "iphone", none, none⟩,
   ⟨60, [2, 3], "iphone", none, none⟩,
   ⟨20, [2, 3], "iphone", none, none⟩,
   ⟨29, [1, 2], "ipad", none, none⟩,
   ⟨40, [1, 2], "ipad", none, none⟩,
   ⟨76, [1, 2], "ipad", none, none⟩,
   ⟨20, [2], "ipad", none, none⟩,
   ⟨83, [2], "ipad", some "83.5x83.5", some 167⟩]

/-- The per-slot output filename `AppIcon-{base}x{base}@{mult}x.png`. -/
def appIconFilename (base mult : ℕ) : String :=
  "AppIcon-" ++ toString base ++ "x" ++ toString base ++ "@" ++ toString mult ++ "x.png"

/-- The image records pushed by the `generate_ios_icons` loop, followed by
the 1024px App Store marketing record (src/icon_gen.rs lines 608–699):
every record is built with `role := None` ("No role for standard Xcode
AppIcon") and then has `expected_size` overwritten with the actual pixel
size; the marketing record keeps `expected_size = "1024x1024"`. -/
def ios_images : List ImageEntry :=
  (ios_sizes.flatMap fun slot =>
    slot.mults.map fun mult =>
      let actualSize := slot.pixel_override.getD (slot.base * mult)
      let sizeStr := slot.size_override.getD (toString slot.base ++ "x" ++ toString slot.base)
      { ImageEntry.new_app_icon (appIconFilename slot.base mult) slot.idiom sizeStr
          (toString mult ++ "x") none with
        expected_size := some (toString actualSize) })
  ++ [ImageEntry.new_app_icon "AppIcon-1024x1024.png" "ios-marketing" "1024x1024" "1x" none]

/-- The iOS `Contents.json` document written by `write_contents_json`
(`ContentsFile::new("icon-generator")` followed by `add_image` for each
record). -/
def ios_contents : ContentsFile :=
  ios_images.foldl ContentsFile.add_image (ContentsFile.new "icon-generator")

/-- The role mapping asserted by the specification ("iOS role:
20→notificationCenter, 29→companionSettings, 40→spotlight,
60/76/83→appLauncher, 1024→none"); stated from the spec's words, for
comparison against the records the code actually emits. -/
def claimed_role_for_base (base : ℕ) : Option String :=
  if base = 20 then some "notificationCenter"
  else if base = 29 then some "companionSettings"
  else if base = 40 then some "spotlight"
  else if base = 60 ∨ base = 76 ∨ base = 83 then some "appLauncher"
  else none

/-- Claim C1 as stated is false: the record generated for the base-20
notification slot (index 6, `AppIcon-20x20@2x.png`) carries no role at all,
while the claim derives `notificationCenter` for base size 20. -/
theorem c1_role_counterexample :
    (ios_contents.images.get? 6).map (fun e => (e.filename, e.idiom, e.size, e.role))
      = some (some "AppIcon-20x20@2x.png", some "iphone", some "20x20", none)
    ∧ claimed_role_for_base 20 = some "notificationCenter"
    ∧ (none : Option String) ≠ some "notificationCenter" := by
  refine ⟨by decide, rfl, by decide⟩

/-- Claim C1 amended: every image record emitted into the iOS
`Contents.json`, including the 1024px marketing record, carries no role
field; the code never derives a role from the base point size. -/
theorem c1_amended_no_roles :
    ios_contents.images.map ImageEntry.role = List.replicate 17 none := by
  decide

/-- Claim C9: the full iOS target yields exactly 17 image records, one of
them the 1024px ios-marketing record, with no duplicate
`(idiom, size, scale)` tuple, and `info.version = 1`. -/
theorem c9_ios_manifest :
    ios_contents.images.length = 17
    ∧ (∃ e ∈ ios_contents.images,
        e.idiom = some "ios-marketing" ∧ e.size = some "1024x1024"
          ∧ e.filename = some "AppIcon-1024x1024.png")
    ∧ (ios_contents.images.map fun e => (e.idiom, e.size, e.scale)).Nodup
    ∧ ios_contents.info.version = 1 := by
  refine ⟨by decide, by decide, by decide, by decide⟩

/-- The static `icns_json` map of `generate_icns` (src/icon_gen.rs lines
401–414), in declaration order: nominal name, pixel size, OSType code.
The Rust code iterates the deserialized `HashMap` in unspecified order;
all properties proved below are order-insensitive (membership). -/
def icns_entries : List (String × ℕ × String) :=
  [("16x16", 16, "is32"),
   ("16x16@2x", 32, "ic11"),
   ("32x32", 32, "il32"),
   ("32x32@2x", 64, "ic12"),
   ("128x128", 128, "ic07"),
   ("128x128@2x", 256, "ic13"),
   ("256x256", 256, "ic08"),
   ("256x256@2x", 512, "ic14"),
   ("512x512", 512, "ic09"),
   ("512x512@2x", 1024, "ic10")]

/-- `name.contains("@2x")` specialised to the pattern `"@2x"`. -/
def hasAt2x : List Char → Bool
  | [] => false
  | '@' :: '2' :: 'x' :: _ => true
  | _ :: t => hasAt2x t

/-- `name.replace("@2x", "")` specialised to the pattern `"@2x"`:
drop every (non-overlapping, left-to-right) occurrence. -/
def stripAt2x : List Char → List Char
  | [] => []
  | '@' :: '2' :: 'x' :: t => stripAt2x t
  | c :: t => c :: stripAt2x t

/-- `build_macos_contents_json` (src/icon_gen.rs lines 749–782): one record
per icns entry with filename `icon_{size}.png`, idiom `mac`, scale `2x`
exactly when the nominal name contains `@2x`, nominal size with the `@2x`
suffix stripped, and folder `"."`. -/
def build_macos_contents_json (entries : List (String × ℕ × String)) : List ImageEntry :=
  entries.map fun e =>
    let name := e.1
    let scale := if hasAt2x name.toList then "2x" else "1x"
    let baseName := if hasAt2x name.toList then String.mk (stripAt2x name.toList) else name
    let filename := "icon_" ++ toString e.2.1 ++ ".png"
    ({ ImageEntry.new filename "mac" scale with size := some baseName }).with_folder "."

/-- The macOS `Contents.json` document written by
`write_macos_contents_json` next to `icon.icns`. -/
def macos_contents : ContentsFile :=
  (build_macos_contents_json icns_entries).foldl ContentsFile.add_image
    (ContentsFile.new "icon-generator")

/-- The `Args` record of src/icon_gen.rs restricted to the fields that
determine which files a run writes (paths, colour strings and the bug
identifier do not affect the produced path set on a successful run). -/
structure Args where
  png : Option (List ℕ)
  desktop_only : Bool
  mobile_only : Bool
  tauri_desktop : Bool
  windows : Bool
  macos : Bool
  linux : Bool
  android : Bool
  android_round : Bool
  android_adaptive : Bool
  ios : Bool
  dev_mode : Bool
deriving DecidableEq

/-- Files written by `generate_ico`. -/
def ico_files : List String := ["windows/icon.ico"]

/-- Files written by `generate_icns` (the icon family plus the macOS
`Contents.json`; no `icon_{size}.png` is ever written). -/
def icns_files : List String := ["macos/icon.icns", "macos/Contents.json"]

/-- Files written by `generate_custom_sizes` for a `--png` size list. -/
def custom_size_files (sizes : List ℕ) : List String :=
  sizes.map fun s => toString s ++ "x" ++ toString s ++ ".png"

/-- Files written by `generate_linux_icons` (512px becomes `icon.png`). -/
def linux_files : List String :=
  [32, 64, 128, 256, 512].map fun s =>
    "linux/" ++ (if s = 512 then "icon.png" else toString s ++ "x" ++ toString s ++ ".png")

/-- Files written by `generate_tauri_desktop_icons`; the two copies are
made only when the source artifact already exists on disk. -/
def tauri_files (prior : List String) : List String :=
  ["tauri-desktop/32x32.png", "tauri-desktop/128x128.png", "tauri-desktop/128x128@2x.png"]
  ++ (if "windows/icon.ico" ∈ prior then ["tauri-desktop/icon.ico"] else [])
  ++ (if "macos/icon.icns" ∈ prior then ["tauri-desktop/icon.icns"] else [])

/-- The Android density buckets of `generate_android_icons_extended`. -/
def android_densities : List (String × ℕ) :=
  [("mdpi", 48), ("hdpi", 72), ("xhdpi", 96), ("xxhdpi", 144), ("xxxhdpi", 192)]

/-- The Android adaptive-icon canvas sizes of `generate_adaptive_icons`. -/
def adaptive_densities : List (String × ℕ) :=
  [("mdpi", 108), ("hdpi", 162), ("xhdpi", 216), ("xxhdpi", 324), ("xxxhdpi", 432)]

/-- Files written by `generate_android_icons_extended`: standard
launchers always, round launchers when `android_round`, adaptive layers
plus the two XML descriptors when `android_adaptive`. -/
def android_files (a : Args) : List String :=
  (android_densities.map fun d => "android/mipmap-" ++ d.1 ++ "/ic_launcher.png")
  ++ (if a.android_round then
        android_densities.map fun d => "android/mipmap-" ++ d.1 ++ "/ic_launcher_round.png"
      else [])
  ++ (if a.android_adaptive then
        (adaptive_densities.flatMap fun d =>
          ["android/mipmap-" ++ d.1 ++ "/ic_launcher_foreground.png",
           "android/mipmap-" ++ d.1 ++ "/ic_launcher_background.png"])
        ++ ["android/mipmap-anydpi-v26/ic_launcher.xml",
            "android/mipmap-anydpi-v26/ic_launcher_round.xml"]
      else [])

/-- Files written by `generate_ios_icons`: the 16 slot PNGs, the 1024px
marketing PNG and the iOS `Contents.json`. -/
def ios_files : List String :=
  (ios_sizes.flatMap fun slot =>
    slot.mults.map fun mult => "ios/" ++ appIconFilename slot.base mult)
  ++ ["ios/AppIcon-1024x1024.png", "ios/Contents.json"]

/-- `has_platform_flags` of `generate_icons`. -/
def has_platform_flags (a : Args) : Bool :=
  a.windows || a.macos || a.linux || a.android || a.ios

/-- `should_invoke_ios_writer` (src/icon_gen.rs lines 200–217). -/
def should_invoke_ios_writer (a : Args) (hpf : Bool) : Bool :=
  if a.ios then true
  else if !hpf && !a.desktop_only && !a.mobile_only && !a.tauri_desktop then true
  else if a.mobile_only then true
  else false

/-- `should_invoke_macos_writer` (src/icon_gen.rs lines 221–243). -/
def should_invoke_macos_writer (a : Args) (hpf : Bool) : Bool :=
  if a.macos then true
  else if a.desktop_only then true
  else if a.tauri_desktop then true
  else if !hpf && !a.desktop_only && !a.mobile_only && !a.tauri_desktop then true
  else false

/-- Files written by `generate_mobile` (Android always, iOS when the iOS
writer is invoked); note it ignores `args.png` entirely. -/
def generate_mobile_files (a : Args) (gi : Bool) : List String :=
  android_files a ++ (if gi then ios_files else [])

/-- Files written by `generate_all` (src/icon_gen.rs lines 245–267). -/
def generate_all_files (a : Args) (gi gm : Bool) : List String :=
  match a.png with
  | some sizes => custom_size_files sizes
  | none =>
    let fs1 := ico_files
    let fs2 := fs1 ++ (if gm then icns_files else [])
    let fs3 := fs2 ++ linux_files
    let fs4 := fs3 ++ tauri_files fs3
    fs4 ++ generate_mobile_files a gi

/-- Files written by `generate_desktop_only`. -/
def generate_desktop_only_files (a : Args) (gm : Bool) : List String :=
  match a.png with
  | some sizes => custom_size_files sizes
  | none =>
    let fs1 := ico_files
    let fs2 := fs1 ++ (if gm then icns_files else [])
    let fs3 := fs2 ++ linux_files
    fs3 ++ tauri_files fs3

/-- Files written by `generate_platforms` (src/icon_gen.rs lines 298–342):
note `args.png` is consulted only inside the `args.linux` branch. -/
def generate_platforms_files (a : Args) (gi gm : Bool) : List String :=
  let fs1 := if a.windows then ico_files else []
  let fs2 := fs1 ++ (if a.macos && gm then icns_files else [])
  let fs3 := fs2 ++ (if a.linux then
      (match a.png with
       | some s => custom_size_files s
       | none => linux_files)
    else [])
  let fs4 := fs3 ++ (if a.windows || a.macos || a.linux then tauri_files fs3 else [])
  let fs5 := fs4 ++ (if a.android then android_files a else [])
  fs5 ++ (if a.ios && gi then ios_files else [])

/-- Files written by the `args.tauri_desktop` branch of `generate_icons`
(ICO, ICNS when the macOS writer is invoked, Linux, tauri bundle); it also
ignores `args.png`. -/
def generate_tauri_branch_files (gm : Bool) : List String :=
  let fs1 := ico_files
  let fs2 := fs1 ++ (if gm then icns_files else [])
  let fs3 := fs2 ++ linux_files
  fs3 ++ tauri_files fs3

/-- `generate_icons` (src/icon_gen.rs lines 151–185) as a path-set
semantics: the source is loaded and checked square before any directory or
file is created (`load_image` precedes `create_dir_all`), so a non-square
source yields the error and an empty effect trace; otherwise the selected
branch writes its file list. -/
def generate_icons (a : Args) (img : Image) : Except String (List String) :=
  if img.width ≠ img.height then
    .error "Source image must be square (width == height)"
  else
    let hpf := has_platform_flags a
    let gi := should_invoke_ios_writer a hpf
    let gm := should_invoke_macos_writer a hpf
    .ok (if a.tauri_desktop then generate_tauri_branch_files gm
         else if a.desktop_only then generate_desktop_only_files a gm
         else if a.mobile_only then generate_mobile_files a gi
         else if hpf then generate_platforms_files a gi gm
         else generate_all_files a gi gm)

/-- The file list of a successful run (empty when the run fails). -/
def run_files (a : Args) (img : Image) : List String :=
  (generate_icons a img).toOption.getD []

/-- The default argument record: no selection flags at all. -/
def args_default : Args :=
  ⟨none, false, false, false, false, false, false, false, false, false, false, false⟩

/-- `--windows --png 64`: a platform flag together with a custom size
list. -/
def args_windows_png : Args :=
  { args_default with windows := true, png := some [64] }

/-- Claim C8: a non-square source is rejected with the descriptive fatal
error before any output file or directory is created. -/
theorem c8_nonsquare_rejected (a : Args) (img : Image)
    (h : img.width ≠ img.height) :
    generate_icons a img = .error "Source image must be square (width == height)" := by
  simp [generate_icons, h]

/-- Witness for C8: a 100×200 source under the default arguments. -/
theorem c8_nonsquare_rejected_witness :
    generate_icons args_default ⟨100, 200, fun _ _ => ⟨0, 0, 0, 255⟩⟩
      = .error "Source image must be square (width == height)" :=
  c8_nonsquare_rejected args_default ⟨100, 200, fun _ _ => ⟨0, 0, 0, 255⟩⟩ (by decide)

/-- Claim C3 is false on the code: with `--windows --png 64` the run still
generates the Windows ICO recipe and the tauri-desktop bundle, and never
emits the requested 64×64 flat PNG (custom sizes are only honoured inside
the `args.linux` branch of `generate_platforms`). -/
theorem c3_png_does_not_suppress :
    (generate_icons args_windows_png (solidImage 64 ⟨0, 0, 0, 255⟩)).isOk = true
    ∧ "windows/icon.ico" ∈ run_files args_windows_png (solidImage 64 ⟨0, 0, 0, 255⟩)
    ∧ "tauri-desktop/icon.ico" ∈ run_files args_windows_png (solidImage 64 ⟨0, 0, 0, 255⟩)
    ∧ "64x64.png" ∉ run_files args_windows_png (solidImage 64 ⟨0, 0, 0, 255⟩) := by
  refine ⟨by decide, by decide, by decide, by decide⟩

/-- Claim C2 is false on the code for the macOS manifest: the macOS
`Contents.json` references `icon_16.png` (declared folder `"."`, i.e. the
manifest's own directory `macos/`), but a default run writes only
`macos/icon.icns` and `macos/Contents.json` — no `icon_{size}.png` ever. -/
theorem c2_macos_manifest_dangling :
    some "icon_16.png" ∈ macos_contents.images.map ImageEntry.filename
    ∧ macos_contents.images.all (fun e => e.folder == some ".") = true
    ∧ "macos/icon_16.png" ∉ run_files args_default (solidImage 64 ⟨0, 0, 0, 255⟩)
    ∧ "macos/icon.icns" ∈ run_files args_default (solidImage 64 ⟨0, 0, 0, 255⟩)
    ∧ "macos/Contents.json" ∈ run_files args_default (solidImage 64 ⟨0, 0, 0, 255⟩) := by
  refine ⟨by decide, by decide, by decide, by decide, by decide⟩

/-- Straight-alpha blend of one pixel pair, the formula used by
`image::imageops::overlay` when compositing the top raster onto the
bottom one (`out_a = ta + ba*(1-ta)`; channels weighted accordingly;
fully transparent black when the result alpha is zero). -/
def blend_pixel (bottom top : Pixel) : Pixel :=
  let ta : ℚ := (top.a : ℚ) / 255
  let ba : ℚ := (bottom.a : ℚ) / 255
  let outA : ℚ := ta + ba * (1 - ta)
  if outA = 0 then ⟨0, 0, 0, 0⟩
  else
    ⟨toU8 (((top.r : ℚ) * ta + (bottom.r : ℚ) * ba * (1 - ta)) / outA),
     toU8 (((top.g : ℚ) * ta + (bottom.g : ℚ) * ba * (1 - ta)) / outA),
     toU8 (((top.b : ℚ) * ta + (bottom.b : ℚ) * ba * (1 - ta)) / outA),
     toU8 (outA * 255)⟩

/-- `image::imageops::overlay(bottom, top, ox, oy)`: pixels inside the
overlap rectangle are alpha-blended, every other pixel of the bottom
raster is untouched. -/
def overlay (bottom top : Image) (ox oy : ℕ) : Image :=
  ⟨bottom.width, bottom.height, fun x y =>
    if ox ≤ x ∧ x < ox + top.width ∧ oy ≤ y ∧ y < oy + top.height
        ∧ x < bottom.width ∧ y < bottom.height then
      blend_pixel (bottom.pixel x y) (top.pixel (x - ox) (y - oy))
    else bottom.pixel x y⟩

/-- The output dimensions of `resize_bug_with_aspect_ratio`
(src/icon_gen.rs lines 993–1016): fit the bug into `t × t` preserving the
aspect ratio (the raster content itself comes from the resampler). -/
def resize_bug_dims (ow oh t : ℕ) : ℕ × ℕ :=
  let ratio : ℚ := (ow : ℚ) / (oh : ℚ)
  if 1 < ratio then (t, ⌊(t : ℚ) / ratio⌋.toNat)
  else (⌊(t : ℚ) * ratio⌋.toNat, t)

theorem resize_bug_dims_le (ow oh t : ℕ) :
    (resize_bug_dims ow oh t).1 ≤ t ∧ (resize_bug_dims ow oh t).2 ≤ t := by
  unfold resize_bug_dims
  by_cases h : 1 < ((ow : ℚ) / (oh : ℚ))
  · rw [if_pos h]
    refine ⟨le_refl t, ?_⟩
    have hle : (t : ℚ) / ((ow : ℚ) / (oh : ℚ)) ≤ (t : ℚ) :=
      div_le_self (by positivity) (le_of_lt h)
    have hfl : ⌊(t : ℚ) / ((ow : ℚ) / (oh : ℚ))⌋ ≤ (t : ℤ) := by
      calc ⌊(t : ℚ) / ((ow : ℚ) / (oh : ℚ))⌋ ≤ ⌊(t : ℚ)⌋ := Int.floor_le_floor hle
      _ = (t : ℤ) := Int.floor_natCast t
    exact Int.toNat_le.mpr hfl
  · rw [if_neg h]
    refine ⟨?_, le_refl t⟩
    push_neg at h
    have hle : (t : ℚ) * ((ow : ℚ) / (oh : ℚ)) ≤ (t : ℚ) :=
      mul_le_of_le_one_right (by positivity) h
    have hfl : ⌊(t : ℚ) * ((ow : ℚ) / (oh : ℚ))⌋ ≤ (t : ℤ) := by
      calc ⌊(t : ℚ) * ((ow : ℚ) / (oh : ℚ))⌋ ≤ ⌊(t : ℚ)⌋ := Int.floor_le_floor hle
      _ = (t : ℤ) := Int.floor_natCast t
    exact Int.toNat_le.mpr hfl

/-- `apply_dev_badge_with_bug` (src/icon_gen.rs lines 52–89) at rotation
angle 0 (every call site in the source passes `0.0`, so the
`rotate_image` branch is never taken): resize the decoded embedded bug
raster to a quarter of the icon's minimum dimension preserving aspect
ratio, then alpha-composite it centred on the icon
(`width.saturating_sub(bug_width) / 2` is ℕ subtraction). -/
def apply_dev_badge_with_bug (resample : Image → ℕ → ℕ → Image)
    (img : Image) (bug : Image) : Image :=
  let bugSize := min img.width img.height / 4
  let dims := resize_bug_dims bug.width bug.height bugSize
  let finalBug := resample bug dims.1 dims.2
  overlay img finalBug ((img.width - finalBug.width) / 2)
    ((img.height - finalBug.height) / 2)

/-- The raster actually encoded by `save_png`: the dev badge is applied
first exactly when `dev_mode` is on. -/
def save_png_raster (resample : Image → ℕ → ℕ → Image) (devMode : Bool)
    (bug : Image) (img : Image) : Image :=
  if devMode then apply_dev_badge_with_bug resample img bug else img

/-- A trivial resampler instance satisfying the dimension contract, used
only to instantiate witnesses. -/
def id_resample : Image → ℕ → ℕ → Image :=
  fun i w h => ⟨w, h, fun x y => i.pixel x y⟩

theorem overlay_outside (bottom top : Image) (ox oy x y : ℕ)
    (h : ¬(ox ≤ x ∧ x < ox + top.width ∧ oy ≤ y ∧ y < oy + top.height
        ∧ x < bottom.width ∧ y < bottom.height)) :
    (overlay bottom top ox oy).pixel x y = bottom.pixel x y := by
  simp only [overlay]
  exact if_neg h

/-- Claim C4 is false on the code: badge mode overlays a centred bug image
of at most 32×32 on a 128×128 icon, so the banner-probe pixel at
`(width/2, height - height/8) = (64, 112)` keeps the source colour — for
the solid source `RGBA(50,100,200,255)` its red channel stays 50 < 100,
while the claim (and the repository's own integration test) demands a red
banner with red ≥ 100 across the bottom quarter. -/
theorem c4_badge_leaves_banner_probe_untouched
    (resample : Image → ℕ → ℕ → Image)
    (hres : ∀ i w h, (resample i w h).width = w ∧ (resample i w h).height = h)
    (bug : Image) :
    (apply_dev_badge_with_bug resample (solidImage 128 ⟨50, 100, 200, 255⟩) bug).pixel 64 112
      = ⟨50, 100, 200, 255⟩
    ∧ ((apply_dev_badge_with_bug resample
        (solidImage 128 ⟨50, 100, 200, 255⟩) bug).pixel 64 112).r < 100 := by
  have hdle := resize_bug_dims_le bug.width bug.height 32
  have hstep : apply_dev_badge_with_bug resample (solidImage 128 ⟨50, 100, 200, 255⟩) bug
      = overlay (solidImage 128 ⟨50, 100, 200, 255⟩)
          (resample bug (resize_bug_dims bug.width bug.height 32).1
            (resize_bug_dims bug.width bug.height 32).2)
          ((128 - (resample bug (resize_bug_dims bug.width bug.height 32).1
            (resize_bug_dims bug.width bug.height 32).2).width) / 2)
          ((128 - (resample bug (resize_bug_dims bug.width bug.height 32).1
            (resize_bug_dims bug.width bug.height 32).2).height) / 2) := rfl
  have hcond : ¬(((128 - (resample bug (resize_bug_dims bug.width bug.height 32).1
        (resize_bug_dims bug.width bug.height 32).2).width) / 2) ≤ 64
      ∧ 64 < ((128 - (resample bug (resize_bug_dims bug.width bug.height 32).1
        (resize_bug_dims bug.width bug.height 32).2).width) / 2)
          + (resample bug (resize_bug_dims bug.width bug.height 32).1
            (resize_bug_dims bug.width bug.height 32).2).width
      ∧ ((128 - (resample bug (resize_bug_dims bug.width bug.height 32).1
        (resize_bug_dims bug.width bug.height 32).2).height) / 2) ≤ 112
      ∧ 112 < ((128 - (resample bug (resize_bug_dims bug.width bug.height 32).1
        (resize_bug_dims bug.width bug.height 32).2).height) / 2)
          + (resample bug (resize_bug_dims bug.width bug.height 32).1
            (resize_bug_dims bug.width bug.height 32).2).height
      ∧ 64 < (solidImage 128 (⟨50, 100, 200, 255⟩ : Pixel)).width
      ∧ 112 < (solidImage 128 (⟨50, 100, 200, 255⟩ : Pixel)).height) := by
    rw [(hres bug (resize_bug_dims bug.width bug.height 32).1
      (resize_bug_dims bug.width bug.height 32).2).2]
    intro hc
    have h4 := hc.2.2.2.1
    omega
  have hout := overlay_outside (solidImage 128 ⟨50, 100, 200, 255⟩)
    (resample bug (resize_bug_dims bug.width bug.height 32).1
      (resize_bug_dims bug.width bug.height 32).2)
    ((128 - (resample bug (resize_bug_dims bug.width bug.height 32).1
      (resize_bug_dims bug.width bug.height 32).2).width) / 2)
    ((128 - (resample bug (resize_bug_dims bug.width bug.height 32).1
      (resize_bug_dims bug.width bug.height 32).2).height) / 2)
    64 112 hcond
  rw [hstep, hout]
  exact ⟨rfl, by decide⟩

/-- Witness for C4 at the identity-content resampler and a concrete 8×8
bug raster. -/
theorem c4_badge_leaves_banner_probe_untouched_witness :
    (apply_dev_badge_with_bug id_resample (solidImage 128 ⟨50, 100, 200, 255⟩)
      (solidImage 8 ⟨255, 0, 0, 255⟩)).pixel 64 112 = ⟨50, 100, 200, 255⟩ :=
  (c4_badge_leaves_banner_probe_untouched id_resample
    (fun _ _ _ => ⟨rfl, rfl⟩) (solidImage 8 ⟨255, 0, 0, 255⟩)).1

/-- How one frame of the ICO container is encoded. -/
inductive IcoEnc where
  | bestCompressionPng
  | plainPng
deriving DecidableEq

/-- One packed ICO frame: pixel size, encoding choice, raster. -/
structure IcoFrame where
  size : ℕ
  enc : IcoEnc
  raster : Image

/-- The fixed ICO size ladder of `generate_ico` (src/icon_gen.rs line
357). -/
def ico_sizes : List ℕ := [16, 24, 32, 48, 64, 256]

/-- The frames packed by `generate_ico` (src/icon_gen.rs lines 344–389):
one frame per ladder size; only the 256px frame goes through `write_png`
(`CompressionType::Best` with adaptive filtering, wrapped via
`IcoFrame::with_encoded`), every smaller frame is embedded via
`IcoFrame::as_png`; the dev badge is applied before encoding when dev
mode is on. -/
def generate_ico_frames (resample : Image → ℕ → ℕ → Image) (devMode : Bool)
    (bug : Image) (src : Image) : List IcoFrame :=
  ico_sizes.map fun size =>
    let resized := resample src size size
    let final := if devMode then apply_dev_badge_with_bug resample resized bug else resized
    if size = 256 then ⟨size, IcoEnc.bestCompressionPng, final⟩
    else ⟨size, IcoEnc.plainPng, final⟩

/-- Claim C7: the generated ICO container holds frames for exactly the
ladder {16,24,32,48,64,256} and no other sizes, with the 256px frame —
and only it — encoded as a best-compression PNG, all smaller frames as
plain embedded PNG frames. -/
theorem c7_ico_ladder (resample : Image → ℕ → ℕ → Image) (devMode : Bool)
    (bug : Image) (src : Image) :
    (generate_ico_frames resample devMode bug src).map (fun f => (f.size, f.enc))
      = [(16, IcoEnc.plainPng), (24, IcoEnc.plainPng), (32, IcoEnc.plainPng),
         (48, IcoEnc.plainPng), (64, IcoEnc.plainPng), (256, IcoEnc.bestCompressionPng)] :=
  rfl

/-- The adaptive-icon layers produced by `generate_adaptive_icons`
(src/icon_gen.rs lines 892–956) as (path, raster) pairs: per density a
foreground (source resized to 66% of the canvas — `(size as f32 * 0.66)
as u32`, which equals `⌊size * 66/100⌋` on all five table sizes — and centred
on a transparent canvas, badge applied via `save_png` when dev mode is
on) and a background saved with the dev flag hard-coded to `false`
("Don't apply dev badge to background"). -/
def generate_adaptive_icons (resample : Image → ℕ → ℕ → Image)
    (devMode : Bool) (bug : Image) (bg : Pixel) (src : Image) :
    List (String × Image) :=
  adaptive_densities.flatMap fun d =>
    let size := d.2
    let iconSize := ⌊(size : ℚ) * (66 / 100)⌋.toNat
    let padding := (size - iconSize) / 2
    let foreground := overlay (solidImage size ⟨0, 0, 0, 0⟩)
      (resample src iconSize iconSize) padding padding
    [("android/mipmap-" ++ d.1 ++ "/ic_launcher_foreground.png",
        save_png_raster resample devMode bug foreground),
     ("android/mipmap-" ++ d.1 ++ "/ic_launcher_background.png",
        save_png_raster resample false bug (solidImage size bg))]

/-- Claim C10: for every density the adaptive background layer is the pure
solid background-colour fill, independent of the dev/badge mode (the
badge is never applied to the background layer). -/
theorem c10_adaptive_background (resample : Image → ℕ → ℕ → Image)
    (devMode : Bool) (bug : Image) (bg : Pixel) (src : Image)
    (d : String × ℕ) (hd : d ∈ adaptive_densities) :
    List.lookup ("android/mipmap-" ++ d.1 ++ "/ic_launcher_background.png")
        (generate_adaptive_icons resample devMode bug bg src)
      = some (solidImage d.2 bg) := by
  fin_cases hd <;> rfl

/-- Witness for C10 at the mdpi density with dev mode on. -/
theorem c10_adaptive_background_witness :
    List.lookup "android/mipmap-mdpi/ic_launcher_background.png"
        (generate_adaptive_icons id_resample true (solidImage 8 ⟨255, 0, 0, 255⟩)
          ⟨9, 8, 7, 255⟩ (solidImage 64 ⟨1, 1, 1, 255⟩))
      = some (solidImage 108 ⟨9, 8, 7, 255⟩) :=
  c10_adaptive_background id_resample true (solidImage 8 ⟨255, 0, 0, 255⟩)
    ⟨9, 8, 7, 255⟩ (solidImage 64 ⟨1, 1, 1, 255⟩) ("mdpi", 108) (by decide)
